import Mathlib

/-!
Verification of the query-serving core of the knot name server
(src/src/server/name-server.c) against its natural-language specification.

The development shallowly embeds the C functions that the claims are about:

* the query-layer driver loop of the UDP datagram pipeline
  (udp_state_active, udp_handle, udp_recvfrom_send);
* the parse-failure adjustment in udp_handle together with a model of the
  query-processor layer (the layer implementation itself, process_query,
  is not among the repository sources and is modelled from the spec);
* the RCU-protected request answering path ns_answer_request, embedded as a
  trace-producing function over an oracle that decides the outcome of its
  fallible callees (the dnss wire codec and the zone database live in files
  that are not part of the sources);
* the QUIC connection table (knot_quic_conn_hash, knot_quic_table_new,
  knot_quic_table_add, knot_quic_table_find) and the capacity used by
  quic_recvfrom_init;
* the outbound NOTIFY producer notify_produce and the result branching of
  send_notify;
* the ancillary-data handler udp_pktinfo_handle.

Machine integers are modelled as Nat; DCID byte strings as lists of Nat;
pointers to heap objects as structure values carrying an identifying tag.
-/

/-! ## Query layer states (knot/query/layer.h) -/

inductive KState
  | knoop
  | kconsume
  | kproduce
  | kdone
  | kfail
  | kreset
deriving DecidableEq

/-- Embeds udp_state_active (name-server.c lines 831-834):
the produce loop keeps running in states PRODUCE and FAIL. -/
def udp_state_active (s : KState) : Bool :=
  s == KState.kproduce || s == KState.kfail

/-- A query-processing layer implementation: internal state type sigma,
query packet type Q.  kbegin models knot_layer_begin, kcons models
knot_layer_consume, kprod models knot_layer_produce (each returns the next
layer state), and ansSize reads the size of the answer packet written so
far (ans->size in udp_handle). -/
structure KnotLayerApi (σ : Type) (Q : Type) where
  kbegin : σ → KState × σ
  kcons : KState → σ → Q → KState × σ
  kprod : KState → σ → KState × σ
  ansSize : σ → Nat

/-- Observable calls udp_handle makes into the layer. -/
inductive LayerEvent (Q : Type)
  | beginEv : LayerEvent Q
  | consumeEv : Q → LayerEvent Q
  | produceEv : KState → LayerEvent Q

/-- Result of one run of the produce loop of udp_handle. -/
structure ProduceLoopResult (σ : Type) (Q : Type) where
  state : KState
  st : σ
  events : List (LayerEvent Q)

/-- The while loop of udp_handle (name-server.c lines 864-867):
while (udp_state_active(state)) knot_layer_produce(...).  The C loop has no
fuel parameter; the fuel only bounds the depth to keep the embedding total,
and theorems assume the loop has in fact terminated. -/
def produce_loop (api : KnotLayerApi σ Q) : Nat → KState → σ → ProduceLoopResult σ Q
  | 0, s, st => ⟨s, st, []⟩
  | Nat.succ fuel, s, st =>
    if udp_state_active s then
      let p := api.kprod s st
      let r := produce_loop api fuel p.1 p.2
      ⟨r.state, r.st, LayerEvent.produceEv s :: r.events⟩
    else ⟨s, st, []⟩

/-- Result of udp_handle: terminal layer state, final layer-internal state,
the length stored into tx->iov_len, and the trace of layer calls. -/
structure UdpHandleResult (σ : Type) (Q : Type) where
  finalState : KState
  layerSt : σ
  txLen : Nat
  events : List (LayerEvent Q)

/-- Embeds udp_handle (name-server.c lines 836-881) generically over the
layer implementation: knot_layer_begin, then knot_layer_consume on the
query, then the produce loop; tx->iov_len is set to ans->size when the
terminal state is DONE and to 0 otherwise. -/
def udp_handle (api : KnotLayerApi σ Q) (fuel : Nat) (q : Q) (st0 : σ) : UdpHandleResult σ Q :=
  let b := api.kbegin st0
  let c := api.kcons b.1 b.2 q
  let r := produce_loop api fuel c.1 c.2
  { finalState := r.state
    layerSt := r.st
    txLen := if r.state = KState.kdone then api.ansSize r.st else 0
    events := LayerEvent.beginEv :: LayerEvent.consumeEv q :: r.events }

/-- Embeds the send decision of udp_recvfrom_send (name-server.c lines
995-1001): a datagram is sent iff tx->iov_len > 0. -/
def udp_recvfrom_send (txLen : Nat) : Bool :=
  decide (0 < txLen)

/-! ## The UDP instantiation: parsed packets and the query-processor layer -/

/-- The fields of a knot_pkt_t that the datagram pipeline inspects:
the 16-bit message ID, the number of bytes knot_pkt_parse consumed, the
datagram size, and whether knot_pkt_parse returned KNOT_EOK. -/
structure KPkt where
  msgId : Nat
  parsed : Nat
  size : Nat
  parseOk : Bool
deriving DecidableEq

/-- Embeds the parse-failure adjustment in udp_handle (name-server.c lines
858-861): if parsing failed and parsed > 0, parsed is decremented before
the packet is handed to the layer. -/
def udp_parse_adjust (q : KPkt) : KPkt :=
  if q.parseOk = false ∧ 0 < q.parsed then { q with parsed := q.parsed - 1 } else q

def KNOT_RCODE_FORMERR : Nat := 1

/-- A response as far as the fault-handling claims observe it: an rcode and
the message ID it carries. -/
structure PQResp where
  rcode : Nat
  respId : Nat
deriving DecidableEq

/-- Internal state of the modelled query-processor layer: the pending
response (if any) and the number of bytes written into the answer packet. -/
structure PQState where
  resp : Option PQResp
  outSize : Nat
deriving DecidableEq

def pqInit : PQState := ⟨none, 0⟩

def DNS_HEADER_SIZE : Nat := 12

/-- Modelled from the spec: the server-side layer implementation
process_query (knot/nameserver/process_query.c) is not among this
repository's source files; only its driver udp_handle is.  Per spec 4.4 the
server-side begin returns CONSUME; per spec 4.5/7 consume on a packet whose
parse failed produces FORMERR carrying the received ID when enough was
parsed to extract the ID (the 16-bit ID occupies the first two octets), and
drops the datagram silently otherwise; produce writes the pending response
(at least a 12-octet header) and completes with DONE. -/
def process_query_api : KnotLayerApi PQState KPkt where
  kbegin st := (KState.kconsume, st)
  kcons _ st q :=
    if q.parseOk then
      (KState.kproduce, { st with resp := some ⟨0, q.msgId⟩ })
    else if 2 ≤ q.parsed then
      (KState.kfail, { st with resp := some ⟨KNOT_RCODE_FORMERR, q.msgId⟩ })
    else
      (KState.knoop, st)
  kprod _ st :=
    match st.resp with
    | some _ => (KState.kdone, { st with outSize := DNS_HEADER_SIZE })
    | none => (KState.kdone, st)
  ansSize st := st.outSize

/-- udp_handle specialised to the UDP pipeline: the packet parse result is
adjusted exactly as in the source and then driven through the
query-processor layer. -/
def udp_handle_udp (q : KPkt) : UdpHandleResult PQState KPkt :=
  udp_handle process_query_api 4 (udp_parse_adjust q) pqInit

/-! ## ns_answer_request (name-server.c lines 29-104) -/

/-- Calls ns_answer_request makes that the RCU-lease and error-path claims
observe.  nodeAccess stands for zn_find_rrset on the node returned by
zdb_find_name; wireFormat records whether the dnss_wire_format call
succeeded. -/
inductive NsEvent
  | rcuLock
  | rcuUnlock
  | zdbFind
  | nodeAccess
  | createEmpty
  | createResponse
  | createErrorResponse
  | wireFormat (ok : Bool)
deriving DecidableEq

/-- Outcomes of the fallible callees of ns_answer_request.  The callees
(dnss_parse_query, zdb_find_name, dnss_create_empty_packet,
dnss_create_response, dnss_wire_format, dnss_create_error_response) live in
dns-simple.c and zone-database.c, which are not among the sources; the
oracle records, for one concrete call of ns_answer_request, what each of
them returned.  parseResult is some qdcount when dnss_parse_query returned
a packet, none when it returned NULL. -/
structure NsOracle where
  parseResult : Option Nat
  findsNode : Bool
  emptyPacketOk : Bool
  createResponseOk : Bool
  wireFormatOk : Bool
  errorResponseOk : Bool
  wireFormat2Ok : Bool
deriving DecidableEq

/-- What ns_answer_request returned and did: the C return value, the trace
of observable calls in program order, whether a response was written into
response_wire, and whether *rsize was set.  Per spec 4.1 the wire encoder
yields either a length or an error, so a failed dnss_wire_format is
modelled as writing no output. -/
structure NsResult where
  retval : Int
  events : List NsEvent
  responseWritten : Bool
  rsizeSet : Bool
deriving DecidableEq

/-- Embeds ns_answer_request (name-server.c lines 29-104) as a straight-line
translation branching on the oracle:
parse failure or qdcount == 0 returns -1 at once; otherwise
rcu_read_lock, zdb_find_name, dnss_create_empty_packet (unlock and -1 on
failure), dnss_create_response with the rrsets of the found node (unlock and
-1 on failure), rcu_read_unlock, then dnss_wire_format; if that fails,
dnss_create_error_response replaces the response (-1 if it fails) and is
encoded by a second dnss_wire_format call; the function then returns 0. -/
def ns_answer_request (o : NsOracle) : NsResult :=
  match o.parseResult with
  | none => ⟨-1, [], false, false⟩
  | some qdcount =>
    if qdcount = 0 then ⟨-1, [], false, false⟩
    else
      let pre := [NsEvent.rcuLock, NsEvent.zdbFind, NsEvent.createEmpty]
      if o.emptyPacketOk = false then
        ⟨-1, pre ++ [NsEvent.rcuUnlock], false, false⟩
      else
        let buildEvs := if o.findsNode then
            [NsEvent.nodeAccess, NsEvent.createResponse]
          else
            [NsEvent.createResponse]
        if o.createResponseOk = false then
          ⟨-1, pre ++ buildEvs ++ [NsEvent.rcuUnlock], false, false⟩
        else
          let built := pre ++ buildEvs ++ [NsEvent.rcuUnlock]
          if o.wireFormatOk then
            ⟨0, built ++ [NsEvent.wireFormat true], true, true⟩
          else if o.errorResponseOk = false then
            ⟨-1, built ++ [NsEvent.wireFormat false, NsEvent.createErrorResponse],
             false, false⟩
          else
            ⟨0, built ++ [NsEvent.wireFormat false, NsEvent.createErrorResponse,
                          NsEvent.wireFormat o.wireFormat2Ok],
             o.wireFormat2Ok, o.wireFormat2Ok⟩

/-- Checks the read-side lease discipline along a trace: rcu_read_lock only
when no lease is held, rcu_read_unlock only when one is, the zone-database
dereference, the node access and the response building happen only under
the lease, the wire-format step happens only outside it, and no lease is
held when the function returns. -/
def leaseScan : Bool → List NsEvent → Bool
  | inLease, [] => !inLease
  | inLease, e :: rest =>
    match e with
    | NsEvent.rcuLock => !inLease && leaseScan true rest
    | NsEvent.rcuUnlock => inLease && leaseScan false rest
    | NsEvent.zdbFind => inLease && leaseScan inLease rest
    | NsEvent.nodeAccess => inLease && leaseScan inLease rest
    | NsEvent.createResponse => inLease && leaseScan inLease rest
    | NsEvent.wireFormat _ => !inLease && leaseScan inLease rest
    | _ => leaseScan inLease rest

def leaseDisciplineOk (evs : List NsEvent) : Bool :=
  leaseScan false evs

/-! ## QUIC connection table (name-server.c lines 1175-1245, 1368) -/

def NGTCP2_MAX_CIDLEN : Nat := 20

/-- Little-endian value of a byte string, as loading it through a
uint64_t pointer does on the target platforms. -/
def le64 (bs : List Nat) : Nat :=
  bs.foldr (fun b acc => b + 256 * acc) 0

/-- The trailing-bytes fold of knot_quic_conn_hash: the first leftover byte
is shifted by 7*8 bits, the next by 6*8, and so on. -/
def quic_tail_fold : Nat → List Nat → Nat
  | _, [] => 0
  | shift, b :: rest => (b <<< (shift * 8)) ^^^ quic_tail_fold (shift - 1) rest

/-- The xor-fold at the heart of knot_quic_conn_hash: full 8-byte chunks are
xored in as 64-bit loads, then the trailing bytes are folded in. -/
def quic_fold : List Nat → Nat
  | b0 :: b1 :: b2 :: b3 :: b4 :: b5 :: b6 :: b7 :: rest =>
      le64 [b0, b1, b2, b3, b4, b5, b6, b7] ^^^ quic_fold rest
  | bs => quic_tail_fold 7 bs

/-- Embeds knot_quic_conn_hash (name-server.c lines 1204-1219): the DCID is
capped at NGTCP2_MAX_CIDLEN bytes and xor-folded. -/
def knot_quic_conn_hash (dcid : List Nat) : Nat :=
  quic_fold (dcid.take NGTCP2_MAX_CIDLEN)

/-- A connection entry: the copied DCID plus a tag standing for the identity
of the calloc-ed knot_quic_conn_t object. -/
structure QuicConn where
  dcid : List Nat
  tag : Nat
deriving DecidableEq

/-- The connection table: bucket array of singly-linked lists.  counter
supplies fresh tags for new entries. -/
structure QuicTable where
  size : Nat
  counter : Nat
  conns : List (List QuicConn)
deriving DecidableEq

/-- Embeds knot_quic_table_new (name-server.c lines 1190-1202): the table is
allocated with exactly the requested number of buckets, all empty. -/
def knot_quic_table_new (size : Nat) : QuicTable :=
  { size := size, counter := 0, conns := List.replicate size [] }

/-- The bucket index used by both knot_quic_table_add and
knot_quic_table_find: hash modulo table size. -/
def quic_bucket (t : QuicTable) (dcid : List Nat) : Nat :=
  knot_quic_conn_hash dcid % t.size

/-- Embeds ngtcp2_cid_eq: two connection IDs are equal iff their lengths and
bytes agree. -/
def ngtcp2_cid_eq (a b : List Nat) : Bool :=
  a == b

/-- Embeds knot_quic_table_add (name-server.c lines 1221-1232): a fresh
entry copying the DCID is pushed onto the front of its bucket's list and
returned. -/
def knot_quic_table_add (t : QuicTable) (dcid : List Nat) : QuicConn × QuicTable :=
  let conn : QuicConn := { dcid := dcid, tag := t.counter }
  let h := quic_bucket t dcid
  (conn,
   { t with
     counter := t.counter + 1
     conns := t.conns.set h (conn :: t.conns.getD h []) })

/-- Embeds knot_quic_table_find (name-server.c lines 1234-1245): walk the
bucket's linked list and stop at the first entry whose DCID matches. -/
def knot_quic_table_find (t : QuicTable) (dcid : List Nat) : Option QuicConn :=
  (t.conns.getD (quic_bucket t dcid) []).find? (fun c => ngtcp2_cid_eq c.dcid dcid)

/-- The connection table created by quic_recvfrom_init (name-server.c line
1368): knot_quic_table_new(100). -/
def quic_recvfrom_init_conns : QuicTable :=
  knot_quic_table_new 100

/-- The least power of two greater than or equal to n (what the spec claims
the table size is rounded up to). -/
def nextPow2From : Nat → Nat → Nat → Nat
  | 0, p, _ => p
  | Nat.succ fuel, p, n => if n ≤ p then p else nextPow2From fuel (2 * p) n

def nextPow2 (n : Nat) : Nat :=
  nextPow2From n 1 n

/-! ## Outbound NOTIFY (name-server.c lines 620-721) -/

def KNOT_OPCODE_NOTIFY : Nat := 4
def KNOT_CLASS_IN : Nat := 1
def KNOT_RRTYPE_SOA : Nat := 6

/-- An rrset as the NOTIFY claims observe it. -/
structure KRRset where
  owner : List Nat
  rtype : Nat
  serial : Nat
deriving DecidableEq

/-- The fields of the outgoing packet that notify_produce writes. -/
structure KnotPktM where
  opcode : Nat
  aa : Bool
  question : Option (List Nat × Nat × Nat)
  answer : List KRRset
  ednsAdded : Bool
deriving DecidableEq

/-- The notify_data parameters of the NOTIFY layer. -/
structure NotifyData where
  zone : List Nat
  soa : Option KRRset

/-- query_init_pkt: a cleared packet. -/
def query_init_pkt : KnotPktM :=
  { opcode := 0, aa := false, question := none, answer := [], ednsAdded := false }

/-- Embeds notify_produce (name-server.c lines 634-653): clear the packet,
set opcode NOTIFY and the AA flag, put the question (zone apex, class IN,
type SOA), append the SOA to the answer section when one was supplied, put
EDNS, and return CONSUME. -/
def notify_produce (data : NotifyData) : KnotPktM × KState :=
  let pkt0 := query_init_pkt
  let pkt1 := { pkt0 with opcode := KNOT_OPCODE_NOTIFY }
  let pkt2 := { pkt1 with aa := true }
  let pkt3 := { pkt2 with question := some (data.zone, KNOT_CLASS_IN, KNOT_RRTYPE_SOA) }
  let pkt4 :=
    match data.soa with
    | some soa => { pkt3 with answer := pkt3.answer ++ [soa] }
    | none => pkt3
  let pkt5 := { pkt4 with ednsAdded := true }
  (pkt5, KState.kconsume)

/-- The three logging branches of send_notify. -/
inductive NotifyOutcome
  | success
  | failedWarn
  | serverError
deriving DecidableEq

/-- What the tail of send_notify decides: which branch is logged and whether
zone->timers.last_notified_serial is recorded. -/
structure SendNotifyResult where
  outcome : NotifyOutcome
  serialRecorded : Bool
deriving DecidableEq

/-- Embeds the branching after knot_requestor_exec in send_notify
(name-server.c lines 699-715): retEok states whether knot_requestor_exec
returned KNOT_EOK, extRcode is knot_pkt_ext_rcode of the response. -/
def send_notify (retEok : Bool) (extRcode : Nat) : SendNotifyResult :=
  if retEok = true ∧ extRcode = 0 then ⟨NotifyOutcome.success, true⟩
  else if extRcode = 0 then ⟨NotifyOutcome.failedWarn, false⟩
  else ⟨NotifyOutcome.serverError, false⟩

/-! ## Ancillary data (name-server.c lines 898-924) -/

/-- The PKTINFO control message: an IPv4 one carries the destination address
of the received datagram (ipi_addr), the chosen source address
(ipi_spec_dst) and the interface index; an IPv6 one carries the interface
index; other control messages are left untouched. -/
inductive CmsgInfo
  | ip4 (addr : Nat) (spec_dst : Nat) (ifindex : Nat)
  | ip6 (ifindex : Nat)
  | other
deriving DecidableEq

/-- A msghdr as udp_pktinfo_handle observes it: the control length and the
first control message (none when the buffer holds no full cmsghdr). -/
structure MsgHdrM where
  controllen : Nat
  control : Option CmsgInfo
deriving DecidableEq

/-- Embeds udp_pktinfo_handle (name-server.c lines 898-924): the outgoing
msghdr takes over the received control length and buffer (NULL when the
length is zero); in an IPv4 PKTINFO the source address is pinned to the
received destination address and the interface index cleared; in an IPv6
PKTINFO the interface index is cleared. -/
def udp_pktinfo_handle (rx : MsgHdrM) : MsgHdrM :=
  let controllen := rx.controllen
  let control := if 0 < controllen then rx.control else none
  match control with
  | none => { controllen := controllen, control := none }
  | some (CmsgInfo.ip4 addr _ _) =>
      { controllen := controllen, control := some (CmsgInfo.ip4 addr addr 0) }
  | some (CmsgInfo.ip6 _) =>
      { controllen := controllen, control := some (CmsgInfo.ip6 0) }
  | some CmsgInfo.other =>
      { controllen := controllen, control := some CmsgInfo.other }

/-- A demonstration layer used to exercise the generic driver theorem on a
concrete run: begin yields CONSUME, consume yields PRODUCE, one produce
writes a 30-byte answer and completes. -/
def demoApi : KnotLayerApi Nat Nat where
  kbegin st := (KState.kconsume, st)
  kcons _ st _ := (KState.kproduce, st)
  kprod _ st := (KState.kdone, st + 30)
  ansSize st := st

/-! ## Helper lemmas -/

theorem getD_set_self_eq {α : Type} (l : List α) (i : Nat) (x d : α) (h : i < l.length) :
    (l.set i x).getD i d = x := by
  simp [List.getD_eq_getElem?_getD, List.getElem?_set_self h]

theorem getD_set_ne_eq {α : Type} (l : List α) (i j : Nat) (x d : α) (h : i ≠ j) :
    (l.set i x).getD j d = l.getD j d := by
  simp [List.getD_eq_getElem?_getD, List.getElem?_set_ne h]

/-- Every event the produce loop records is a produce call made while the
layer state was PRODUCE or FAIL. -/
theorem produce_loop_events_active {σ Q : Type} (api : KnotLayerApi σ Q) :
    ∀ (fuel : Nat) (s : KState) (st : σ) (e : LayerEvent Q),
      e ∈ (produce_loop api fuel s st).events →
      ∃ sP, e = LayerEvent.produceEv sP ∧ udp_state_active sP = true := by
  intro fuel
  induction fuel with
  | zero =>
    intro s st e he
    simp [produce_loop] at he
  | succ f ih =>
    intro s st e he
    by_cases hs : udp_state_active s
    · simp only [produce_loop, hs, if_true, List.mem_cons] at he
      rcases he with he | he
      · exact ⟨s, he, hs⟩
      · exact ih _ _ e he
    · simp [produce_loop, hs] at he

/-- If the loop came to rest in an inactive state but started active, then
produce was called at least once. -/
theorem produce_loop_progress {σ Q : Type} (api : KnotLayerApi σ Q) (fuel : Nat)
    (s : KState) (st : σ)
    (hstop : udp_state_active (produce_loop api fuel s st).state = false)
    (hact : udp_state_active s = true) :
    (produce_loop api fuel s st).events ≠ [] := by
  cases fuel with
  | zero =>
    simp [produce_loop] at hstop
    simp [hstop] at hact
  | succ f =>
    simp [produce_loop, hact]

/-- After knot_quic_table_add, knot_quic_table_find on the same DCID returns
the entry just added. -/
theorem quic_find_after_add (t : QuicTable) (dcid : List Nat)
    (hlen : t.conns.length = t.size) (hpos : 0 < t.size) :
    knot_quic_table_find (knot_quic_table_add t dcid).2 dcid
      = some (knot_quic_table_add t dcid).1 := by
  have hblt : quic_bucket t dcid < t.conns.length := by
    rw [hlen]; exact Nat.mod_lt _ hpos
  have hbe : quic_bucket (knot_quic_table_add t dcid).2 dcid = quic_bucket t dcid := rfl
  have hget : ((knot_quic_table_add t dcid).2.conns).getD (quic_bucket t dcid) []
      = (knot_quic_table_add t dcid).1 :: t.conns.getD (quic_bucket t dcid) [] :=
    getD_set_self_eq _ _ _ _ hblt
  unfold knot_quic_table_find
  rw [hbe, hget, List.find?_cons_of_pos _ (by simp [knot_quic_table_add, ngtcp2_cid_eq])]

/-- Adding an entry for one DCID does not change what find returns for any
other DCID: chained entries in the same bucket stay reachable. -/
theorem quic_find_after_add_other (t : QuicTable) (d e : List Nat)
    (hlen : t.conns.length = t.size) (hpos : 0 < t.size) (hne : d ≠ e) :
    knot_quic_table_find (knot_quic_table_add t d).2 e = knot_quic_table_find t e := by
  have hbe : quic_bucket (knot_quic_table_add t d).2 e = quic_bucket t e := rfl
  by_cases hb : quic_bucket t e = quic_bucket t d
  · have hblt : quic_bucket t d < t.conns.length := by
      rw [hlen]; exact Nat.mod_lt _ hpos
    have hget : ((knot_quic_table_add t d).2.conns).getD (quic_bucket t e) []
        = (knot_quic_table_add t d).1 :: t.conns.getD (quic_bucket t e) [] := by
      rw [hb]
      exact getD_set_self_eq _ _ _ _ hblt
    unfold knot_quic_table_find
    rw [hbe, hget, List.find?_cons_of_neg _
      (by simp only [knot_quic_table_add, ngtcp2_cid_eq, beq_iff_eq]; exact hne)]
  · have hget : ((knot_quic_table_add t d).2.conns).getD (quic_bucket t e) []
        = t.conns.getD (quic_bucket t e) [] :=
      getD_set_ne_eq _ _ _ _ _ (fun hEq => hb hEq.symm)
    unfold knot_quic_table_find
    rw [hbe, hget]

/-- An 8-byte chunk at the front of the DCID contributes its little-endian
64-bit value to the xor-fold. -/
theorem quic_fold_chunk : ∀ (c rest : List Nat), c.length = 8 →
    quic_fold (c ++ rest) = le64 c ^^^ quic_fold rest := by
  intro c rest h
  rcases c with _ | ⟨b0, c⟩
  · simp at h
  rcases c with _ | ⟨b1, c⟩
  · simp at h
  rcases c with _ | ⟨b2, c⟩
  · simp at h
  rcases c with _ | ⟨b3, c⟩
  · simp at h
  rcases c with _ | ⟨b4, c⟩
  · simp at h
  rcases c with _ | ⟨b5, c⟩
  · simp at h
  rcases c with _ | ⟨b6, c⟩
  · simp at h
  rcases c with _ | ⟨b7, c⟩
  · simp at h
  have hc : c = [] := by
    have hlen : c.length = 0 := by simpa using h
    exact List.length_eq_zero.mp hlen
  subst hc
  rfl

/-- Fewer than 8 leftover bytes are hashed by the trailing-bytes fold
starting at shift 7. -/
theorem quic_fold_small : ∀ tl : List Nat, tl.length < 8 →
    quic_fold tl = quic_tail_fold 7 tl := by
  intro tl h
  rcases tl with _ | ⟨b0, tl⟩
  · rfl
  rcases tl with _ | ⟨b1, tl⟩
  · rfl
  rcases tl with _ | ⟨b2, tl⟩
  · rfl
  rcases tl with _ | ⟨b3, tl⟩
  · rfl
  rcases tl with _ | ⟨b4, tl⟩
  · rfl
  rcases tl with _ | ⟨b5, tl⟩
  · rfl
  rcases tl with _ | ⟨b6, tl⟩
  · rfl
  rcases tl with _ | ⟨b7, tl⟩
  · rfl
  · simp only [List.length_cons] at h
    omega

/-! ## Claim theorems -/

/-- C1: For every datagram processed by udp_handle, the query layer is
driven as: begin is called once, then consume once on the parsed query,
then produce is called repeatedly exactly while the layer state is PRODUCE
or FAIL, and the outgoing buffer length is set to the answer size iff the
terminal state is DONE (otherwise it is set to 0, so udp_recvfrom_send
sends no response datagram). -/
theorem claim_C1 {σ Q : Type} (api : KnotLayerApi σ Q) (fuel : Nat) (q : Q) (st0 : σ)
    (hterm : udp_state_active (udp_handle api fuel q st0).finalState = false) :
    (udp_handle api fuel q st0).events.take 2
        = [LayerEvent.beginEv, LayerEvent.consumeEv q]
    ∧ (∀ e ∈ (udp_handle api fuel q st0).events.drop 2,
        ∃ sP, e = LayerEvent.produceEv sP ∧ udp_state_active sP = true)
    ∧ (udp_state_active
          (api.kcons (api.kbegin st0).1 (api.kbegin st0).2 q).1 = true →
        (udp_handle api fuel q st0).events.drop 2 ≠ [])
    ∧ ((udp_handle api fuel q st0).finalState = KState.kdone →
        (udp_handle api fuel q st0).txLen
          = api.ansSize (udp_handle api fuel q st0).layerSt)
    ∧ ((udp_handle api fuel q st0).finalState ≠ KState.kdone →
        (udp_handle api fuel q st0).txLen = 0)
    ∧ ((udp_handle api fuel q st0).finalState ≠ KState.kdone →
        udp_recvfrom_send (udp_handle api fuel q st0).txLen = false) := by
  have htx : (udp_handle api fuel q st0).txLen
      = if (udp_handle api fuel q st0).finalState = KState.kdone
        then api.ansSize (udp_handle api fuel q st0).layerSt else 0 := rfl
  refine ⟨rfl, ?_, ?_, ?_, ?_, ?_⟩
  · intro e he
    exact produce_loop_events_active api fuel _ _ e he
  · intro hact
    exact produce_loop_progress api fuel _ _ hterm hact
  · intro hdone
    rw [htx, if_pos hdone]
  · intro hnd
    rw [htx, if_neg hnd]
  · intro hnd
    rw [htx, if_neg hnd]
    rfl

theorem claim_C1_witness :
    (udp_handle demoApi 2 7 0).events.take 2
        = [LayerEvent.beginEv, LayerEvent.consumeEv 7]
    ∧ (udp_handle demoApi 2 7 0).txLen
        = demoApi.ansSize (udp_handle demoApi 2 7 0).layerSt :=
  ⟨(claim_C1 demoApi 2 7 0 (by decide)).1,
   (claim_C1 demoApi 2 7 0 (by decide)).2.2.2.1 (by decide)⟩

/-- C6: every packet produced by notify_produce has opcode NOTIFY, the AA
flag set, question (zone apex, class IN, type SOA), and the supplied SOA
rrset (when present) as the sole content of the answer section; the layer
then moves to CONSUME. -/
theorem claim_C6 (data : NotifyData) :
    (notify_produce data).1.opcode = KNOT_OPCODE_NOTIFY
    ∧ (notify_produce data).1.aa = true
    ∧ (notify_produce data).1.question
        = some (data.zone, KNOT_CLASS_IN, KNOT_RRTYPE_SOA)
    ∧ (notify_produce data).1.answer = data.soa.toList
    ∧ (notify_produce data).2 = KState.kconsume := by
  obtain ⟨z, soa⟩ := data
  cases soa <;> simp [notify_produce, query_init_pkt]

/-- C7 counterexample: with knot_requestor_exec not returning KNOT_EOK but
the response extended rcode 0, send_notify takes the failure-warning
branch, not the success branch, and does not record the last-notified
serial — refuting that extended rcode 0 alone suffices for success. -/
theorem claim_C7_counterexample :
    (send_notify false 0).outcome = NotifyOutcome.failedWarn
    ∧ (send_notify false 0).serialRecorded = false
    ∧ ¬ (send_notify false 0).outcome = NotifyOutcome.success := by
  decide

/-- C7 amended: send_notify takes the success branch (logging success and
recording the last-notified serial) iff knot_requestor_exec returned
KNOT_EOK and the response extended rcode is 0 — conjunction, not
disjunction. -/
theorem claim_C7_amended (retEok : Bool) (extRcode : Nat) :
    ((send_notify retEok extRcode).outcome = NotifyOutcome.success
        ↔ (retEok = true ∧ extRcode = 0))
    ∧ ((send_notify retEok extRcode).serialRecorded = true
        ↔ (send_notify retEok extRcode).outcome = NotifyOutcome.success) := by
  cases retEok <;> by_cases h : extRcode = 0 <;> simp [send_notify, h]

theorem claim_C7_witness :
    (send_notify true 0).outcome = NotifyOutcome.success :=
  (claim_C7_amended true 0).1.mpr ⟨rfl, rfl⟩

/-- C9: udp_pktinfo_handle copies the received control length, NULLs the
control buffer when the received control length is zero, clears the
interface index of an IPv4 or IPv6 PKTINFO, and for IPv4 pins the outgoing
source address (ipi_spec_dst) to the received destination (ipi_addr). -/
theorem claim_C9 (rx : MsgHdrM) :
    (udp_pktinfo_handle rx).controllen = rx.controllen
    ∧ (rx.controllen = 0 → (udp_pktinfo_handle rx).control = none)
    ∧ (∀ a d i, 0 < rx.controllen → rx.control = some (CmsgInfo.ip4 a d i) →
        (udp_pktinfo_handle rx).control = some (CmsgInfo.ip4 a a 0))
    ∧ (∀ i, 0 < rx.controllen → rx.control = some (CmsgInfo.ip6 i) →
        (udp_pktinfo_handle rx).control = some (CmsgInfo.ip6 0))
    ∧ (0 < rx.controllen →
        (udp_pktinfo_handle rx).control.isSome = rx.control.isSome) := by
  obtain ⟨len, ctl⟩ := rx
  refine ⟨?_, ?_, ?_, ?_, ?_⟩
  · rcases ctl with _ | c
    · by_cases h : 0 < len <;> simp [udp_pktinfo_handle, h]
    · cases c <;> by_cases h : 0 < len <;> simp [udp_pktinfo_handle, h]
  · intro h0
    subst h0
    rcases ctl with _ | c
    · rfl
    · cases c <;> rfl
  · intro a d i h hc
    simp only at hc
    subst hc
    simp [udp_pktinfo_handle, h]
  · intro i h hc
    simp only at hc
    subst hc
    simp [udp_pktinfo_handle, h]
  · intro h
    rcases ctl with _ | c
    · simp [udp_pktinfo_handle, h]
    · cases c <;> simp [udp_pktinfo_handle, h]

theorem claim_C9_witness :
    (udp_pktinfo_handle ⟨24, some (CmsgInfo.ip4 7 9 3)⟩).control
      = some (CmsgInfo.ip4 7 7 0) :=
  (claim_C9 ⟨24, some (CmsgInfo.ip4 7 9 3)⟩).2.2.1 7 9 3 (by decide) rfl

/-- C4 counterexample: the connection table created by quic_recvfrom_init
has exactly 100 buckets (the configured capacity), while the next power of
two greater than or equal to 100 is 128 — refuting that the table is sized
to the next power of two. -/
theorem claim_C4_counterexample :
    quic_recvfrom_init_conns.size = 100
    ∧ nextPow2 100 = 128
    ∧ ¬ quic_recvfrom_init_conns.size = nextPow2 100 := by
  decide

/-- C4 amended: the hash over a DCID is the xor-fold of its 8-byte chunks
(little-endian 64-bit loads, DCID capped at NGTCP2_MAX_CIDLEN bytes) plus
the trailing-bytes fold, collisions are resolved by a linked list within
the bucket (entries added earlier remain reachable after further adds, in
the same bucket or not), but the table is sized to exactly the configured
capacity, not rounded up to a power of two. -/
theorem claim_C4_amended :
    (∀ cap : Nat, (knot_quic_table_new cap).size = cap
        ∧ (knot_quic_table_new cap).conns = List.replicate cap [])
    ∧ (∀ d : List Nat, knot_quic_conn_hash d = quic_fold (d.take NGTCP2_MAX_CIDLEN))
    ∧ (∀ c rest : List Nat, c.length = 8 →
        quic_fold (c ++ rest) = le64 c ^^^ quic_fold rest)
    ∧ (∀ tl : List Nat, tl.length < 8 → quic_fold tl = quic_tail_fold 7 tl)
    ∧ (∀ (t : QuicTable) (d1 d2 : List Nat),
        t.conns.length = t.size → 0 < t.size → d1 ≠ d2 →
        knot_quic_table_find
            (knot_quic_table_add (knot_quic_table_add t d1).2 d2).2 d1
          = some (knot_quic_table_add t d1).1
        ∧ knot_quic_table_find
            (knot_quic_table_add (knot_quic_table_add t d1).2 d2).2 d2
          = some (knot_quic_table_add (knot_quic_table_add t d1).2 d2).1) := by
  refine ⟨fun cap => ⟨rfl, rfl⟩, fun d => rfl, quic_fold_chunk, quic_fold_small, ?_⟩
  intro t d1 d2 hlen hpos hne
  have hlen1 : (knot_quic_table_add t d1).2.conns.length
      = (knot_quic_table_add t d1).2.size := by
    show (t.conns.set _ _).length = t.size
    rw [List.length_set]
    exact hlen
  have hpos1 : 0 < (knot_quic_table_add t d1).2.size := hpos
  constructor
  · rw [quic_find_after_add_other _ _ _ hlen1 hpos1 (Ne.symm hne)]
    exact quic_find_after_add t d1 hlen hpos
  · exact quic_find_after_add _ d2 hlen1 hpos1

theorem claim_C4_witness :
    knot_quic_table_find
        (knot_quic_table_add (knot_quic_table_add (knot_quic_table_new 1) [1]).2 [2]).2 [1]
      = some (knot_quic_table_add (knot_quic_table_new 1) [1]).1 :=
  (claim_C4_amended.2.2.2.2 (knot_quic_table_new 1) [1] [2]
    (by decide) (by decide) (by decide)).1

/-- C5: after knot_quic_table_add returns a connection entry for a DCID,
knot_quic_table_find on the same DCID returns exactly that entry, so two
successive datagrams carrying identical DCIDs reach the same connection
state. -/
theorem claim_C5 (t : QuicTable) (dcid : List Nat)
    (hlen : t.conns.length = t.size) (hpos : 0 < t.size) :
    knot_quic_table_find (knot_quic_table_add t dcid).2 dcid
      = some (knot_quic_table_add t dcid).1 :=
  quic_find_after_add t dcid hlen hpos

theorem claim_C5_witness :
    knot_quic_table_find (knot_quic_table_add quic_recvfrom_init_conns [7, 7, 7]).2 [7, 7, 7]
      = some (knot_quic_table_add quic_recvfrom_init_conns [7, 7, 7]).1 :=
  claim_C5 quic_recvfrom_init_conns [7, 7, 7] (by decide) (by decide)

/-- C3: on every execution of ns_answer_request, the read-side lease is
acquired before the zone database is dereferenced, the node data is
accessed and the response built only under the lease, the lease is released
before the wire-format step, and on every return path an acquired lease is
released exactly once. -/
theorem claim_C3 (o : NsOracle) :
    leaseDisciplineOk (ns_answer_request o).events = true
    ∧ (ns_answer_request o).events.count NsEvent.rcuLock
        = (ns_answer_request o).events.count NsEvent.rcuUnlock
    ∧ (ns_answer_request o).events.count NsEvent.rcuLock ≤ 1 := by
  obtain ⟨pr, fn, ep, cr, wf, er, wf2⟩ := o
  rcases pr with _ | n
  · exact ⟨rfl, rfl, Nat.zero_le 1⟩
  rcases n with _ | m
  · exact ⟨rfl, rfl, Nat.zero_le 1⟩
  have hred : ns_answer_request ⟨some (m + 1), fn, ep, cr, wf, er, wf2⟩
      = ns_answer_request ⟨some 1, fn, ep, cr, wf, er, wf2⟩ := by
    simp [ns_answer_request]
  rw [hred]
  cases fn <;> cases ep <;> cases cr <;> cases wf <;> cases er <;> cases wf2 <;> decide

/-- C10: ns_answer_request returns -1 without touching response_wire or
*rsize when the query fails to parse or the parsed question count is zero,
and a response is written into response_wire only on executions that
return 0. -/
theorem claim_C10 (o : NsOracle) :
    ((o.parseResult = none ∨ o.parseResult = some 0) →
        (ns_answer_request o).retval = -1
        ∧ (ns_answer_request o).responseWritten = false
        ∧ (ns_answer_request o).rsizeSet = false
        ∧ (ns_answer_request o).events = [])
    ∧ ((ns_answer_request o).responseWritten = true →
        (ns_answer_request o).retval = 0) := by
  obtain ⟨pr, fn, ep, cr, wf, er, wf2⟩ := o
  rcases pr with _ | n
  · exact ⟨fun _ => ⟨rfl, rfl, rfl, rfl⟩, fun h => nomatch h⟩
  rcases n with _ | m
  · exact ⟨fun _ => ⟨rfl, rfl, rfl, rfl⟩, fun h => nomatch h⟩
  · have hred : ns_answer_request ⟨some (m + 1), fn, ep, cr, wf, er, wf2⟩
        = ns_answer_request ⟨some 1, fn, ep, cr, wf, er, wf2⟩ := by
      simp [ns_answer_request]
    constructor
    · rintro (h | h) <;> simp at h
    · rw [hred]
      cases fn <;> cases ep <;> cases cr <;> cases wf <;> cases er <;> cases wf2 <;> decide

theorem claim_C10_witness :
    (ns_answer_request ⟨none, true, true, true, true, true, true⟩).retval = -1
    ∧ (ns_answer_request ⟨none, true, true, true, true, true, true⟩).responseWritten
        = false :=
  ⟨((claim_C10 ⟨none, true, true, true, true, true, true⟩).1 (Or.inl rfl)).1,
   ((claim_C10 ⟨none, true, true, true, true, true, true⟩).1 (Or.inl rfl)).2.1⟩

/-- C8 counterexample: on an execution where the first dnss_wire_format
call fails, ns_answer_request calls dnss_create_error_response — it
replaces the response with an error (SERVFAIL) response instead of setting
TC and re-encoding only the header and question, refuting the claim as
stated. -/
theorem claim_C8_counterexample :
    NsEvent.createErrorResponse
      ∈ (ns_answer_request ⟨some 1, true, true, true, false, true, true⟩).events := by
  decide

/-- C8 amended: when the first dnss_wire_format call fails (after a
successfully parsed query with a question, a successfully allocated packet
and a successfully created response), ns_answer_request replaces the
response with an error (SERVFAIL) response built by
dnss_create_error_response and encodes that with a second dnss_wire_format
call, returning 0; it does not set TC and re-encode only the header and
question. -/
theorem claim_C8_amended (n : Nat) (fn er wf2 : Bool) :
    NsEvent.createErrorResponse
      ∈ (ns_answer_request ⟨some (n + 1), fn, true, true, false, er, wf2⟩).events
    ∧ (er = true →
        NsEvent.wireFormat wf2
          ∈ (ns_answer_request ⟨some (n + 1), fn, true, true, false, er, wf2⟩).events
        ∧ (ns_answer_request ⟨some (n + 1), fn, true, true, false, er, wf2⟩).retval
            = 0) := by
  have hred : ns_answer_request ⟨some (n + 1), fn, true, true, false, er, wf2⟩
      = ns_answer_request ⟨some 1, fn, true, true, false, er, wf2⟩ := by
    simp [ns_answer_request]
  rw [hred]
  cases fn <;> cases er <;> cases wf2 <;> simp [ns_answer_request]

theorem claim_C8_witness :
    NsEvent.wireFormat false
      ∈ (ns_answer_request ⟨some 2, false, true, true, false, true, false⟩).events
    ∧ (ns_answer_request ⟨some 2, false, true, true, false, true, false⟩).retval = 0 :=
  (claim_C8_amended 1 false true false).2 rfl

/-- C2: a datagram whose parse fails after at least the 12-octet DNS header
was consumed is still handed to the layer and yields a FORMERR response
carrying the parsed ID (the terminal state is DONE and a non-empty payload
is shipped); a datagram whose parse fails with no bytes consumed produces
no response datagram. -/
theorem claim_C2 (q : KPkt) :
    (q.parseOk = false → 12 ≤ q.parsed →
        (udp_handle_udp q).layerSt.resp = some ⟨KNOT_RCODE_FORMERR, q.msgId⟩
        ∧ (udp_handle_udp q).finalState = KState.kdone
        ∧ 0 < (udp_handle_udp q).txLen)
    ∧ (q.parseOk = false → q.parsed = 0 →
        (udp_handle_udp q).txLen = 0
        ∧ (udp_handle_udp q).layerSt.resp = none
        ∧ udp_recvfrom_send (udp_handle_udp q).txLen = false) := by
  obtain ⟨i, p, sz, pk⟩ := q
  constructor
  · intro hpk h12
    simp only at hpk h12
    subst hpk
    have hadj : udp_parse_adjust ⟨i, p, sz, false⟩ = ⟨i, p - 1, sz, false⟩ := by
      unfold udp_parse_adjust
      rw [if_pos ⟨rfl, show 0 < p by omega⟩]
    have h2 : 2 ≤ p - 1 := by omega
    simp [udp_handle_udp, hadj, udp_handle, process_query_api, produce_loop,
          udp_state_active, h2, pqInit, KNOT_RCODE_FORMERR, DNS_HEADER_SIZE]
  · intro hpk hp0
    simp only at hpk hp0
    subst hpk
    subst hp0
    exact ⟨rfl, rfl, rfl⟩

theorem claim_C2_witness :
    (udp_handle_udp ⟨4660, 13, 30, false⟩).layerSt.resp
        = some ⟨KNOT_RCODE_FORMERR, 4660⟩
    ∧ (udp_handle_udp ⟨4660, 13, 30, false⟩).finalState = KState.kdone :=
  ⟨((claim_C2 ⟨4660, 13, 30, false⟩).1 rfl (by decide)).1,
   ((claim_C2 ⟨4660, 13, 30, false⟩).1 rfl (by decide)).2.1⟩
